import Mathlib

/-!
Shallow embedding of `src/codefind/bedrock_llm.py` (the CodeFind Bedrock
normalization layer): request formatting, response parsing (non-streaming and
streaming), model-id resolution, and the error taxonomy.

Dynamic (JSON / duck-typed) values are modelled by the `Json` inductive;
Python runtime failures (`AttributeError`, `TypeError`, `KeyError`) that the
source does not catch are modelled by `Except`.
-/

/-- Prefix test on character lists. -/
def isPrefixL : List Char → List Char → Bool
  | [], _ => true
  | _ :: _, [] => false
  | a :: as, b :: bs => a == b && isPrefixL as bs

/-- `stripPre pat s = some rest` iff `s = pat ++ rest`. -/
def stripPre : List Char → List Char → Option (List Char)
  | [], s => some s
  | _ :: _, [] => none
  | a :: as, b :: bs => if a == b then stripPre as bs else none

/-- Substring containment on character lists (Python `sub in s`). -/
def containsL (sub : List Char) : List Char → Bool
  | [] => sub.isEmpty
  | c :: rest => isPrefixL sub (c :: rest) || containsL sub rest

/-- Python `sub in s` for strings. -/
def pyIn (sub s : String) : Bool := containsL sub.toList s.toList

/-- Fuel-indexed replace-all on character lists (fuel bounds the recursion;
`pyReplace` below supplies `s.length`, which suffices for a non-empty pattern). -/
def replaceFuel (pat rep : List Char) : Nat → List Char → List Char
  | _, [] => []
  | 0, s => s
  | fuel + 1, c :: rest =>
    match stripPre pat (c :: rest) with
    | some rem => rep ++ replaceFuel pat rep fuel rem
    | none => c :: replaceFuel pat rep fuel rest

/-- Python `s.replace(pat, rep)`: replaces every occurrence of `pat` in `s`. -/
def pyReplace (s pat rep : String) : String :=
  String.mk (replaceFuel pat.toList rep.toList s.toList.length s.toList)

/-- Python `s.lower()`. -/
def pyLower (s : String) : String := String.mk (s.toList.map Char.toLower)

/-- Python `s.startswith(p)`. -/
def pyStartsWith (s p : String) : Bool := isPrefixL p.toList s.toList

/-! ### JSON-like dynamic values

Models the values produced by `json.loads` and handled by the duck-typed
Python code. Operations that Python would raise on (attribute/index/type
errors on unexpected shapes) return `none`.
-/

inductive Json where
  | null
  | bool (b : Bool)
  | num (n : Int)
  | str (s : String)
  | arr (xs : List Json)
  | obj (fields : List (String × Json))

/-- Python truthiness of a JSON value. -/
def pyTruthy : Json → Bool
  | .null => false
  | .bool b => b
  | .num n => n != 0
  | .str s => !s.isEmpty
  | .arr xs => !xs.isEmpty
  | .obj fs => !fs.isEmpty

/-- Lookup in a Python dict's field list; a later binding for the same key
shadows an earlier one, as with repeated dict assignment. -/
def fieldsGet : List (String × Json) → String → Option Json
  | [], _ => none
  | (k, v) :: rest, key =>
    match fieldsGet rest key with
    | some r => some r
    | none => if k == key then some v else none

/-- Python `d.get(key, default)`: `none` models the `AttributeError` raised
when the receiver is not a dict. -/
def pyGetD (j : Json) (key : String) (dflt : Json) : Option Json :=
  match j with
  | .obj fs => some ((fieldsGet fs key).getD dflt)
  | _ => none

/-- Python `key in d`. Only reached in the source after a `.get` call has
established that the receiver is a dict. -/
def pyHasKey (j : Json) (key : String) : Bool :=
  match j with
  | .obj fs => (fieldsGet fs key).isSome
  | _ => false

/-- Numeric view used by Python `+` (bools count as ints). -/
def pyNum? : Json → Option Int
  | .num n => some n
  | .bool b => some (if b then 1 else 0)
  | _ => none

/-- Python `+` on JSON values; `none` models the `TypeError` on unsupported
operand combinations. -/
def pyAdd (a b : Json) : Option Json :=
  match pyNum? a, pyNum? b with
  | some x, some y => some (.num (x + y))
  | _, _ =>
    match a, b with
    | .str s, .str t => some (.str (s ++ t))
    | .arr xs, .arr ys => some (.arr (xs ++ ys))
    | _, _ => none

/-- Python `x[0]`. For a non-empty string the subsequent `.get` in the source
raises anyway, so every non-list receiver is an error here. -/
def pyIndex0 : Json → Option Json
  | .arr (x :: _) => some x
  | _ => none

/-- Python `==` against a string literal (non-strings are simply unequal). -/
def jsonEqStr (j : Json) (s : String) : Bool :=
  match j with
  | .str t => t == s
  | _ => false

/- Python `repr` of a JSON value (string escaping inside quotes is not
modelled; no claim depends on it). -/
mutual
def pyRepr : Json → String
  | .null => "None"
  | .bool true => "True"
  | .bool false => "False"
  | .num n => toString n
  | .str s => "'" ++ s ++ "'"
  | .arr xs => "[" ++ pyReprItems xs ++ "]"
  | .obj fs => "\x7b" ++ pyReprFields fs ++ "\x7d"
def pyReprItems : List Json → String
  | [] => ""
  | [x] => pyRepr x
  | x :: y :: rest => pyRepr x ++ ", " ++ pyReprItems (y :: rest)
def pyReprFields : List (String × Json) → String
  | [] => ""
  | [(k, v)] => "'" ++ k ++ "': " ++ pyRepr v
  | (k, v) :: f :: rest => "'" ++ k ++ "': " ++ pyRepr v ++ ", " ++ pyReprFields (f :: rest)
end

/-- Python `str` of a JSON value. -/
def pyStr : Json → String
  | .str s => s
  | j => pyRepr j

/-! ### Model family classification (`BedrockResponse.__init__`, `completion`)

The source dispatches by case-insensitive substring tests on the model id,
in this fixed order; anything matching none of the three is a
`BedrockModelError`.
-/

inductive ModelFamily where
  | anthropic
  | titan
  | llama
deriving Repr, DecidableEq

def modelFamily (model : String) : Option ModelFamily :=
  let m := pyLower model
  if pyIn "anthropic" m then some .anthropic
  else if pyIn "amazon.titan" m then some .titan
  else if pyIn "meta.llama" m then some .llama
  else none

/-- Failures surfaced by the embedded code: `modelError` is the source's
`BedrockModelError`; `runtimeError` is an uncaught Python runtime error
(`AttributeError` / `TypeError` on an unexpected dynamic shape). -/
inductive PyFailure where
  | modelError (msg : String)
  | runtimeError
deriving Repr, DecidableEq

/-! ### Request formatting (`_format_anthropic_request` etc.) -/

structure ChatMessage where
  role : String
  content : String
deriving Repr, DecidableEq

structure AnthropicBody where
  messages : List (String × String)
  max_tokens : Int
  temperature : Rat
  anthropic_version : String
  system : Option String
deriving Repr, DecidableEq

/-- `BedrockLLM._format_anthropic_request`: the loop keeps overwriting
`system_message` with each system message's content and appends every
non-system message; the `system` key is added only when the final
`system_message` is truthy. -/
def format_anthropic_request (messages : List ChatMessage) (temperature : Rat)
    (max_tokens : Int) : AnthropicBody :=
  let system_message := messages.foldl
    (fun acc m => if m.role == "system" then m.content else acc) ""
  let formatted_messages :=
    (messages.filter (fun m => !(m.role == "system"))).map (fun m => (m.role, m.content))
  { messages := formatted_messages
    max_tokens := max_tokens
    temperature := temperature
    anthropic_version := "bedrock-2023-05-31"
    system := if system_message.isEmpty then none else some system_message }

structure TitanConfig where
  maxTokenCount : Int
  temperature : Rat
  topP : Rat
  stopSequences : List String
deriving Repr, DecidableEq

structure TitanBody where
  inputText : String
  textGenerationConfig : TitanConfig
deriving Repr, DecidableEq

/-- `BedrockLLM._format_titan_request`: single prompt with role labels and a
trailing "Assistant: " cue; `top_p` and `stop` are the optional kwargs. -/
def format_titan_request (messages : List ChatMessage) (temperature : Rat)
    (max_tokens : Int) (top_p : Option Rat) (stop : Option (List String)) : TitanBody :=
  let prompt := messages.foldl
    (fun acc m =>
      if m.role == "system" then acc ++ "System: " ++ m.content ++ "\n\n"
      else if m.role == "user" then acc ++ "Human: " ++ m.content ++ "\n\n"
      else if m.role == "assistant" then acc ++ "Assistant: " ++ m.content ++ "\n\n"
      else acc) ""
  { inputText := prompt ++ "Assistant: "
    textGenerationConfig :=
      { maxTokenCount := max_tokens
        temperature := temperature
        topP := top_p.getD (9 / 10)
        stopSequences := stop.getD [] } }

structure LlamaBody where
  prompt : String
  max_gen_len : Int
  temperature : Rat
  top_p : Rat
deriving Repr, DecidableEq

/-- `BedrockLLM._format_llama_request`: chat-markup template with an open
assistant header appended. -/
def format_llama_request (messages : List ChatMessage) (temperature : Rat)
    (max_tokens : Int) (top_p : Option Rat) : LlamaBody :=
  let prompt := messages.foldl
    (fun acc m =>
      if m.role == "system" then
        acc ++ "<|begin_of_text|><|start_header_id|>system<|end_header_id|>\n"
          ++ m.content ++ "<|eot_id|>"
      else if m.role == "user" then
        acc ++ "<|start_header_id|>user<|end_header_id|>\n" ++ m.content ++ "<|eot_id|>"
      else if m.role == "assistant" then
        acc ++ "<|start_header_id|>assistant<|end_header_id|>\n" ++ m.content ++ "<|eot_id|>"
      else acc) ""
  { prompt := prompt ++ "<|start_header_id|>assistant<|end_header_id|>\n"
    max_gen_len := max_tokens
    temperature := temperature
    top_p := top_p.getD (9 / 10) }

/-! ### Model resolution (`get_best_model_id`, `get_available_inference_profiles`)

The listing network call is represented by its outcome: `some ids` when
`list_inference_profiles` returns those profile ids, `none` when it raises
(the source catches the exception, prints a warning and returns `{}`).
-/

def regionNames : List String := ["us", "eu", "ap", "ca", "sa", "af", "me"]

/-- `any(m.startswith(f"{region}.") for region in [...])`. -/
def isRegionQualified (m : String) : Bool :=
  regionNames.any (fun r => pyStartsWith m (r ++ "."))

/-- Python `s.split('.', 1)`: the parts before and after the first `'.'`,
or `none` when the string contains no `'.'`. -/
def splitOnceDot (s : String) : Option (String × String) :=
  let l := s.toList
  match l.dropWhile (fun c => !(c == '.')) with
  | [] => none
  | _ :: tail => some (String.mk (l.takeWhile (fun c => !(c == '.'))), String.mk tail)

/-- Loop body of `get_available_inference_profiles`: dict assignment indexed
by the base id (profile id with its leading region segment removed); a later
profile with the same base id overwrites an earlier one, which the
cons-to-front representation models via first-match lookup. -/
def buildProfileMap (ids : List String) : List (String × String) :=
  ids.foldl
    (fun acc pid =>
      match splitOnceDot pid with
      | some (_, base) => (base, pid) :: acc
      | none => acc) []

/-- `get_available_inference_profiles`: returns the base-id → profile-id map,
or the empty map when the listing call raised. -/
def get_available_inference_profiles (listing : Option (List String)) :
    List (String × String) :=
  match listing with
  | none => []
  | some ids => buildProfileMap ids

/-- `get_best_model_id`: strip `bedrock/` everywhere, trust an already
region-qualified id, otherwise look the base id up in the freshly fetched
profile map, falling back to the id itself. Total: it never raises. -/
def get_best_model_id (requested_model : String) (listing : Option (List String)) :
    String :=
  let clean_model := pyReplace requested_model "bedrock/" ""
  if isRegionQualified clean_model then clean_model
  else
    match (get_available_inference_profiles listing).lookup clean_model with
    | some pid => pid
    | none => clean_model

/-- `get_best_model_id` plus the number of listing network calls it performs
(the source reaches `get_available_inference_profiles()` exactly when the
cleaned id is not region-qualified; there is no module-level cache). -/
def get_best_model_id_traced (requested_model : String)
    (listing : Option (List String)) : String × Nat :=
  let clean_model := pyReplace requested_model "bedrock/" ""
  if isRegionQualified clean_model then (clean_model, 0)
  else
    match (get_available_inference_profiles listing).lookup clean_model with
    | some pid => (pid, 1)
    | none => (clean_model, 1)

/-- A sequence of resolution calls made by one process. The source keeps no
state between calls (there is no cache variable anywhere in the module), so
each call re-runs the same stateless function; the second component counts
the listing network calls performed over the whole sequence. -/
def resolve_sequence : List String → Option (List String) → List String × Nat
  | [], _ => ([], 0)
  | r :: rest, listing =>
    let first := get_best_model_id_traced r listing
    let others := resolve_sequence rest listing
    (first.1 :: others.1, first.2 + others.2)

/-! ### Non-streaming response parsing (`BedrockResponse`) -/

structure Usage where
  prompt_tokens : Json
  completion_tokens : Json
  total_tokens : Json

structure UnifiedResponse where
  text : Json
  finish_reason : Json
  usage : Usage

/-- The `content`-to-text step of `_parse_anthropic_response`:
`if content and isinstance(content, list): text = content[0].get('text','')
else: text = str(content)`. The empty list is falsy, so it takes the
`str(content)` branch. -/
def anthropicTextOf : Json → Option Json
  | .arr (x :: _) => pyGetD x "text" (.str "")
  | c => some (.str (pyStr c))

/-- `BedrockResponse._parse_anthropic_response`. -/
def parse_anthropic_response (data : Json) : Option UnifiedResponse := do
  let content ← pyGetD data "content" (.arr [])
  let text ← anthropicTextOf content
  let finish ← pyGetD data "stop_reason" (.str "stop")
  let usage_data ← pyGetD data "usage" (.obj [])
  let pt ← pyGetD usage_data "input_tokens" (.num 0)
  let ct ← pyGetD usage_data "output_tokens" (.num 0)
  let tt ← pyAdd pt ct
  some ⟨text, finish, ⟨pt, ct, tt⟩⟩

/-- `BedrockResponse._parse_titan_response`. -/
def parse_titan_response (data : Json) : Option UnifiedResponse := do
  let results ← pyGetD data "results" (.arr [])
  let text ←
    if pyTruthy results then do
      let first ← pyIndex0 results
      pyGetD first "outputText" (.str "")
    else
      some (.str "")
  some ⟨text, .str "stop", ⟨.num 0, .num 0, .num 0⟩⟩

/-- `BedrockResponse._parse_llama_response`. -/
def parse_llama_response (data : Json) : Option UnifiedResponse := do
  let text ← pyGetD data "generation" (.str "")
  let finish ← pyGetD data "stop_reason" (.str "stop")
  let pt ← pyGetD data "prompt_token_count" (.num 0)
  let ct ← pyGetD data "generation_token_count" (.num 0)
  let tt ← pyAdd pt ct
  some ⟨text, finish, ⟨pt, ct, tt⟩⟩

/-- `BedrockResponse.__init__`: family dispatch on the model string, before
any field of the body is read; an unrecognized family raises
`BedrockModelError` and a dynamic-shape failure inside a parser is an
uncaught runtime error. -/
def BedrockResponse_init (model : String) (response_data : Json) :
    Except PyFailure UnifiedResponse :=
  match modelFamily model with
  | some .anthropic =>
    match parse_anthropic_response response_data with
    | some r => .ok r
    | none => .error .runtimeError
  | some .titan =>
    match parse_titan_response response_data with
    | some r => .ok r
    | none => .error .runtimeError
  | some .llama =>
    match parse_llama_response response_data with
    | some r => .ok r
    | none => .error .runtimeError
  | none => .error (.modelError ("Unsupported model type: " ++ model))

/-! ### Completion request phase (`BedrockLLM.completion`, up to the transport)

`completion` resolves the model id, dispatches on its family to build the
native body, and only then enters the `try` block that performs the
transport call. An unrecognized family raises `BedrockModelError` before any
transport invocation; `completion_prepare` models everything before the
transport call, and its `.ok` value (the invoke plan) is what a transport
invocation would consume.
-/

inductive NativeBody where
  | anthropic (b : AnthropicBody)
  | titan (b : TitanBody)
  | llama (b : LlamaBody)
deriving Repr, DecidableEq

/-- The family dispatch of `completion` (lines 165-172). -/
def format_request_dispatch (model_id : String) (messages : List ChatMessage)
    (temperature : Rat) (max_tokens : Int) (top_p : Option Rat)
    (stop : Option (List String)) : Except PyFailure NativeBody :=
  match modelFamily model_id with
  | some .anthropic => .ok (.anthropic (format_anthropic_request messages temperature max_tokens))
  | some .titan => .ok (.titan (format_titan_request messages temperature max_tokens top_p stop))
  | some .llama => .ok (.llama (format_llama_request messages temperature max_tokens top_p))
  | none => .error (.modelError ("Unsupported model: " ++ model_id))

structure InvokePlan where
  modelId : String
  body : NativeBody
deriving Repr, DecidableEq

/-- `completion` from entry to just before the transport `try` block. -/
def completion_prepare (model : String) (listing : Option (List String))
    (messages : List ChatMessage) (temperature : Rat) (max_tokens : Int)
    (top_p : Option Rat) (stop : Option (List String)) : Except PyFailure InvokePlan :=
  let model_id := get_best_model_id model listing
  (format_request_dispatch model_id messages temperature max_tokens top_p stop).map
    (fun body => ⟨model_id, body⟩)

/-! ### Streaming (`_handle_streaming_response` and the per-family chunk parsers) -/


/-- Parsing core of `_parse_anthropic_streaming_chunk` (the body inside its
`try`); `none` is a raised exception, which the wrapper turns into `""`. -/
def anthropic_chunk_core (d : Json) : Option Json := do
  let ty ← pyGetD d "type" .null
  if jsonEqStr ty "content_block_delta" then do
    let delta ← pyGetD d "delta" (.obj [])
    pyGetD delta "text" (.str "")
  else if jsonEqStr ty "content_block_start" then
    some (.str "")
  else if jsonEqStr ty "message_delta" then
    some (.str "")
  else if pyHasKey d "completion" then
    pyGetD d "completion" (.str "")
  else if pyHasKey d "delta" then do
    let delta ← pyGetD d "delta" (.obj [])
    pyGetD delta "text" (.str "")
  else if pyHasKey d "text" then
    pyGetD d "text" (.str "")
  else
    some (.str "")

/-- `_parse_anthropic_streaming_chunk`: any exception is caught and turned
into the empty string. -/
def parse_anthropic_streaming_chunk (d : Json) : Json :=
  (anthropic_chunk_core d).getD (.str "")

/-- `_parse_titan_streaming_chunk`. -/
def parse_titan_streaming_chunk (d : Json) : Json :=
  (pyGetD d "outputText" (.str "")).getD (.str "")

/-- `_parse_llama_streaming_chunk`. -/
def parse_llama_streaming_chunk (d : Json) : Json :=
  (pyGetD d "generation" (.str "")).getD (.str "")

/-- Per-event text extraction in `_handle_streaming_response` (the family
dispatch; an unrecognized family produces `""`). -/
def chunk_text_of (model_id : String) (data : Json) : Json :=
  let m := pyLower model_id
  if pyIn "anthropic" m then parse_anthropic_streaming_chunk data
  else if pyIn "amazon.titan" m then parse_titan_streaming_chunk data
  else if pyIn "meta.llama" m then parse_llama_streaming_chunk data
  else .str ""

/-- One native event from the Bedrock event stream: either it has a
`'chunk'` key whose bytes decode to `data`, or it does not (and the loop
body skips it). -/
inductive StreamEvent where
  | chunk (data : Json)
  | other

/-- A yielded streaming chunk (the source's ad hoc `StreamingChunk` object,
keeping its `delta.content` and `finish_reason`; `finish_reason = none`
marks a non-terminal chunk). -/
structure StreamingChunk where
  content : Json
  finish_reason : Option String

/-- The chunk yielded in the loop of `_handle_streaming_response` for one
event: `none` when the loop yields nothing for it (no `'chunk'` key, or
falsy extracted text — `if chunk_text:` guards the yield). -/
def stream_event_chunk (model_id : String) : StreamEvent → Option StreamingChunk
  | .other => none
  | .chunk data =>
    let t := chunk_text_of model_id data
    if pyTruthy t then some ⟨t, none⟩ else none

/-- `_handle_streaming_response`. `events` are the native events consumed
without an exception; `failure = some e` means consuming the source raised
`e` after those events, in which case the `except` block yields exactly one
error chunk and returns (no stop chunk); otherwise the loop is followed by
exactly one final stop chunk. -/
def handle_streaming_response (model_id : String) (events : List StreamEvent)
    (failure : Option String) : List StreamingChunk :=
  let body := events.filterMap (stream_event_chunk model_id)
  match failure with
  | none => body ++ [⟨.str "", some "stop"⟩]
  | some e => body ++ [⟨.str ("Streaming error: " ++ e), some "error"⟩]

/-! ### Spec-side comparison definitions -/

/-- Modelled from the spec's words for comparison (claim C10): "strip an
optional provider-gateway prefix" read as removing only a single leading
`bedrock/`. -/
def spec_strip_leading_gateway (s : String) : String :=
  match stripPre "bedrock/".toList s.toList with
  | some rest => String.mk rest
  | none => s

/-- Whether the streaming loop yields a chunk for an event: it must carry a
`'chunk'` key and its extracted text must be truthy. -/
def event_yields (model_id : String) : StreamEvent → Bool
  | .chunk d => pyTruthy (chunk_text_of model_id d)
  | .other => false

/-- The terminal chunk `_handle_streaming_response` ends with: the stop
chunk when consumption succeeded, the single error chunk otherwise. -/
def terminal_chunk : Option String → StreamingChunk
  | none => ⟨.str "", some "stop"⟩
  | some e => ⟨.str ("Streaming error: " ++ e), some "error"⟩

/-! ## Helper lemmas -/

theorem find?_append_eq {α : Type _} (p : α → Bool) :
    ∀ l₁ l₂ : List α, (l₁ ++ l₂).find? p = ((l₁.find? p) <|> (l₂.find? p)) := by
  intro l₁ l₂
  induction l₁ with
  | nil => rfl
  | cons a t ih =>
    by_cases h : p a = true
    · simp [List.find?, h]
    · simp only [Bool.not_eq_true] at h
      simp [List.find?, h, ih]

/-- The `system_message` loop of `_format_anthropic_request` keeps the
content of the last system message (seed `a` when there is none). -/
theorem foldl_system_eq_last (messages : List ChatMessage) (a : String) :
    messages.foldl (fun acc m => if m.role == "system" then m.content else acc) a
      = (((messages.reverse.find? (fun m => m.role == "system")).map
          (fun m => m.content)).getD a) := by
  induction messages generalizing a with
  | nil => rfl
  | cons m rest ih =>
    simp only [List.foldl_cons, List.reverse_cons, find?_append_eq]
    rw [ih]
    cases hr : rest.reverse.find? (fun m => m.role == "system") with
    | some x => simp [hr]
    | none =>
      by_cases hm : (m.role == "system") = true
      · simp [hr, List.find?, hm]
      · simp only [Bool.not_eq_true] at hm
        simp [hr, List.find?, hm]

theorem stream_body_all_nonterminal (model_id : String) (events : List StreamEvent) :
    (events.filterMap (stream_event_chunk model_id)).all
      (fun c => c.finish_reason.isNone) = true := by
  induction events with
  | nil => rfl
  | cons ev rest ih =>
    cases ev with
    | other => simpa [stream_event_chunk] using ih
    | chunk d =>
      by_cases h : pyTruthy (chunk_text_of model_id d) = true
      · simpa [stream_event_chunk, h] using ih
      · simp only [Bool.not_eq_true] at h
        simpa [stream_event_chunk, h] using ih

theorem stream_body_all_truthy (model_id : String) (events : List StreamEvent) :
    (events.filterMap (stream_event_chunk model_id)).all
      (fun c => c.finish_reason.isNone && pyTruthy c.content) = true := by
  induction events with
  | nil => rfl
  | cons ev rest ih =>
    cases ev with
    | other => simpa [stream_event_chunk] using ih
    | chunk d =>
      by_cases h : pyTruthy (chunk_text_of model_id d) = true
      · simpa [stream_event_chunk, h] using ih
      · simp only [Bool.not_eq_true] at h
        simpa [stream_event_chunk, h] using ih

theorem stream_body_length (model_id : String) (events : List StreamEvent) :
    (events.filterMap (stream_event_chunk model_id)).length
      = (events.filter (event_yields model_id)).length := by
  induction events with
  | nil => rfl
  | cons ev rest ih =>
    cases ev with
    | other => simpa [stream_event_chunk, event_yields] using ih
    | chunk d =>
      by_cases h : pyTruthy (chunk_text_of model_id d) = true
      · simpa [stream_event_chunk, event_yields, h] using ih
      · simp only [Bool.not_eq_true] at h
        simpa [stream_event_chunk, event_yields, h] using ih

/-- The traced resolver agrees with `get_best_model_id`. -/
theorem traced_fst (r : String) (listing : Option (List String)) :
    (get_best_model_id_traced r listing).1 = get_best_model_id r listing := by
  unfold get_best_model_id_traced get_best_model_id
  by_cases h : isRegionQualified (pyReplace r "bedrock/" "") = true
  · simp [h]
  · simp only [Bool.not_eq_true] at h
    simp only [h]
    cases (get_available_inference_profiles listing).lookup (pyReplace r "bedrock/" "") <;> simp

/-- The traced resolver performs the listing call exactly when the cleaned
id is not already region-qualified. -/
theorem traced_snd (r : String) (listing : Option (List String)) :
    (get_best_model_id_traced r listing).2
      = if isRegionQualified (pyReplace r "bedrock/" "") then 0 else 1 := by
  unfold get_best_model_id_traced
  by_cases h : isRegionQualified (pyReplace r "bedrock/" "") = true
  · simp [h]
  · simp only [Bool.not_eq_true] at h
    simp only [h]
    cases (get_available_inference_profiles listing).lookup (pyReplace r "bedrock/" "") <;> simp

/-! ## Claims -/

/-- C1, counterexample: with two system messages "alpha" then "beta", the
built request's system field is just "beta" — the later message overwrote
the earlier one, so the field is not a merge containing the text of every
system message; and with a non-empty system message followed by an empty
one, the field is omitted although a non-empty system message exists. -/
theorem c1_counterexample :
    (format_anthropic_request
        [⟨"system", "alpha"⟩, ⟨"system", "beta"⟩] 0 4096).system = some "beta"
      ∧ pyIn "alpha" "beta" = false
      ∧ (format_anthropic_request
          [⟨"system", "gamma"⟩, ⟨"system", ""⟩] 0 4096).system = none := by
  exact ⟨rfl, by decide, rfl⟩

/-- C1 (amended): the Anthropic request's system field carries the content
of the last message with role=system (earlier system messages are
discarded), and the field is omitted exactly when there is no system
message or the last one has empty content. -/
theorem c1_system_last_wins (messages : List ChatMessage) (temperature : Rat)
    (max_tokens : Int) :
    (format_anthropic_request messages temperature max_tokens).system
      = match (messages.reverse.find? (fun m => m.role == "system")).map
            (fun m => m.content) with
        | some c => if c.isEmpty then none else some c
        | none => none := by
  unfold format_anthropic_request
  rw [foldl_system_eq_last]
  cases hr : (messages.reverse.find? (fun m => m.role == "system")).map
      (fun m => m.content) with
  | none => rfl
  | some c =>
    by_cases hc : c.isEmpty = true
    · simp [hc]
    · simp only [Bool.not_eq_true] at hc
      simp [hc]

/-- C2, counterexample: an Anthropic `content_block_start` event (a native
event with a recognized block-start shape) yields no chunk at all — the
output for a one-event stream is only the final stop chunk — instead of the
empty-delta non-terminal chunk the claim requires for every event. -/
theorem c2_counterexample :
    handle_streaming_response "anthropic.claude-3"
        [.chunk (Json.obj [("type", Json.str "content_block_start")])] none
      = [⟨Json.str "", some "stop"⟩] := rfl

/-- C2 (amended): events whose extracted text is falsy (block-start markers,
metadata deltas, events without a `'chunk'` key, unrecognized shapes) are
dropped from the output: every non-terminal chunk produced has truthy
(non-empty) deltaText, and the number of non-terminal chunks equals the
number of events whose extracted text is truthy. -/
theorem c2_truthy_chunks_only (model_id : String) (events : List StreamEvent)
    (failure : Option String) :
    ((handle_streaming_response model_id events failure).dropLast.all
        (fun c => c.finish_reason.isNone && pyTruthy c.content) = true)
      ∧ (handle_streaming_response model_id events failure).dropLast.length
          = (events.filter (event_yields model_id)).length := by
  cases failure with
  | none =>
    refine ⟨?_, ?_⟩
    · show ((events.filterMap (stream_event_chunk model_id))
          ++ [(⟨Json.str "", some "stop"⟩ : StreamingChunk)]).dropLast.all _ = true
      rw [List.dropLast_concat]
      exact stream_body_all_truthy model_id events
    · show ((events.filterMap (stream_event_chunk model_id))
          ++ [(⟨Json.str "", some "stop"⟩ : StreamingChunk)]).dropLast.length = _
      rw [List.dropLast_concat]
      exact stream_body_length model_id events
  | some e =>
    refine ⟨?_, ?_⟩
    · show ((events.filterMap (stream_event_chunk model_id))
          ++ [(⟨Json.str ("Streaming error: " ++ e), some "error"⟩ : StreamingChunk)]).dropLast.all _ = true
      rw [List.dropLast_concat]
      exact stream_body_all_truthy model_id events
    · show ((events.filterMap (stream_event_chunk model_id))
          ++ [(⟨Json.str ("Streaming error: " ++ e), some "error"⟩ : StreamingChunk)]).dropLast.length = _
      rw [List.dropLast_concat]
      exact stream_body_length model_id events

/-- C3, counterexample: two successive resolutions of the same unqualified
deployment id, with the listing call succeeding and containing a matching
qualified id, both resolve to the qualified id and perform one listing
network call each (2 in total) — there is no cache making the second call
skip the listing, as the claim states. -/
theorem c3_counterexample :
    resolve_sequence ["anthropic.claude-v2", "anthropic.claude-v2"]
        (some ["us.anthropic.claude-v2"])
      = (["us.anthropic.claude-v2", "us.anthropic.claude-v2"], 2) := by decide

/-- C3 (amended): the module keeps no resolution cache at all: over any
sequence of resolutions, the number of listing network calls equals the
number of requests whose cleaned id is not already region-qualified — every
such resolution repeats the listing call, no matter what earlier calls did. -/
theorem c3_no_resolution_cache (requests : List String)
    (listing : Option (List String)) :
    (resolve_sequence requests listing).2
      = (requests.filter
          (fun r => !isRegionQualified (pyReplace r "bedrock/" ""))).length := by
  induction requests with
  | nil => rfl
  | cons r rest ih =>
    show (get_best_model_id_traced r listing).2 + (resolve_sequence rest listing).2 = _
    rw [traced_snd, ih]
    by_cases h : isRegionQualified (pyReplace r "bedrock/" "") = true
    · simp [List.filter_cons, h]
    · simp only [Bool.not_eq_true] at h
      simp [List.filter_cons, h, Nat.add_comm]

/-- C4: every streaming chunk sequence is the per-event chunks (all
non-terminal) followed by exactly one terminal chunk, and nothing after it:
with no failure the terminal chunk has empty deltaText and finishReason
"stop"; a failure after any number of consumed events appends exactly one
chunk with the error text and finishReason "error" as the last element. -/
theorem c4_exactly_one_terminal (model_id : String) (events : List StreamEvent)
    (failure : Option String) :
    (handle_streaming_response model_id events failure).dropLast
        = events.filterMap (stream_event_chunk model_id)
      ∧ ((handle_streaming_response model_id events failure).dropLast.all
          (fun c => c.finish_reason.isNone) = true)
      ∧ (handle_streaming_response model_id events failure).getLast?
          = some (terminal_chunk failure) := by
  cases failure with
  | none =>
    refine ⟨?_, ?_, ?_⟩
    · show ((events.filterMap (stream_event_chunk model_id))
          ++ [(⟨Json.str "", some "stop"⟩ : StreamingChunk)]).dropLast = _
      rw [List.dropLast_concat]
    · show ((events.filterMap (stream_event_chunk model_id))
          ++ [(⟨Json.str "", some "stop"⟩ : StreamingChunk)]).dropLast.all _ = true
      rw [List.dropLast_concat]
      exact stream_body_all_nonterminal model_id events
    · show ((events.filterMap (stream_event_chunk model_id))
          ++ [(⟨Json.str "", some "stop"⟩ : StreamingChunk)]).getLast? = _
      rw [List.getLast?_concat]
      rfl
  | some e =>
    refine ⟨?_, ?_, ?_⟩
    · show ((events.filterMap (stream_event_chunk model_id))
          ++ [(⟨Json.str ("Streaming error: " ++ e), some "error"⟩ : StreamingChunk)]).dropLast
          = _
      rw [List.dropLast_concat]
    · show ((events.filterMap (stream_event_chunk model_id))
          ++ [(⟨Json.str ("Streaming error: " ++ e), some "error"⟩ : StreamingChunk)]).dropLast.all
          _ = true
      rw [List.dropLast_concat]
      exact stream_body_all_nonterminal model_id events
    · show ((events.filterMap (stream_event_chunk model_id))
          ++ [(⟨Json.str ("Streaming error: " ++ e), some "error"⟩ : StreamingChunk)]).getLast?
          = _
      rw [List.getLast?_concat]
      rfl

/-- C5: a requested id whose cleaned form (provider-gateway `bedrock/`
prefix stripped) is already region-qualified resolves to that cleaned id
unchanged, whatever the listing outcome; and when the listing call fails the
resolver returns the cleaned id as-is for every input — resolution is a
total function and never raises. -/
theorem c5_qualified_and_failure_fallback (requested : String)
    (listing : Option (List String)) :
    (isRegionQualified (pyReplace requested "bedrock/" "") = true →
        get_best_model_id requested listing = pyReplace requested "bedrock/" "")
      ∧ get_best_model_id requested none = pyReplace requested "bedrock/" "" := by
  constructor
  · intro h
    unfold get_best_model_id
    simp [h]
  · unfold get_best_model_id
    by_cases h : isRegionQualified (pyReplace requested "bedrock/" "") = true
    · simp [h]
    · simp only [Bool.not_eq_true] at h
      simp [h, get_available_inference_profiles, List.lookup]

/-- Witness for C5 at a concrete qualified id and a non-empty listing. -/
theorem c5_witness :
    isRegionQualified
        (pyReplace "bedrock/us.anthropic.claude-3-haiku-20240307-v1:0" "bedrock/" "")
        = true
      ∧ get_best_model_id "bedrock/us.anthropic.claude-3-haiku-20240307-v1:0"
          (some ["eu.meta.llama3-8b-instruct-v1:0"])
        = pyReplace "bedrock/us.anthropic.claude-3-haiku-20240307-v1:0" "bedrock/" "" :=
  ⟨by decide,
   (c5_qualified_and_failure_fallback "bedrock/us.anthropic.claude-3-haiku-20240307-v1:0"
      (some ["eu.meta.llama3-8b-instruct-v1:0"])).1 (by decide)⟩

/-- C6: a deployment id matching none of the three family substrings makes
the request-building dispatch return the classified ModelError (for every
message list and parameters, hence before any transport invocation — the
`completion` prelude yields no invoke plan), and makes response parsing
return the classified ModelError for every native body (hence before any
field of the body is accessed). -/
theorem c6_unrecognized_family_errors (model_id : String)
    (h : modelFamily model_id = none) :
    (∀ messages temperature max_tokens top_p stop,
        format_request_dispatch model_id messages temperature max_tokens top_p stop
          = .error (.modelError ("Unsupported model: " ++ model_id)))
      ∧ (∀ data, BedrockResponse_init model_id data
          = .error (.modelError ("Unsupported model type: " ++ model_id)))
      ∧ (∀ model listing messages temperature max_tokens top_p stop,
          get_best_model_id model listing = model_id →
            completion_prepare model listing messages temperature max_tokens top_p stop
              = .error (.modelError ("Unsupported model: " ++ model_id))) := by
  refine ⟨?_, ?_, ?_⟩
  · intro messages temperature max_tokens top_p stop
    unfold format_request_dispatch
    rw [h]
  · intro data
    unfold BedrockResponse_init
    rw [h]
  · intro model listing messages temperature max_tokens top_p stop hres
    unfold completion_prepare format_request_dispatch
    rw [hres]
    simp only [h]
    rfl

/-- Witness for C6 at the unrecognized id "gpt-4". -/
theorem c6_witness :
    modelFamily "gpt-4" = none
      ∧ BedrockResponse_init "gpt-4" (Json.obj [])
          = .error (.modelError ("Unsupported model type: " ++ "gpt-4")) :=
  ⟨by decide, (c6_unrecognized_family_errors "gpt-4" (by decide)).2.1 (Json.obj [])⟩

/-- C7, counterexample: an Anthropic body whose `content` is the empty list
— which is list-shaped — parses to the stringified content "[]" (the falsy
empty list takes the `str(content)` branch), not to a first element's text
field: the empty list has no first element at all. -/
theorem c7_counterexample :
    BedrockResponse_init "anthropic.claude-v2" (Json.obj [("content", Json.arr [])])
        = .ok ⟨Json.str "[]", Json.str "stop", ⟨Json.num 0, Json.num 0, Json.num 0⟩⟩
      ∧ ¬ ∃ (x : Json) (xs : List Json), Json.arr ([] : List Json) = Json.arr (x :: xs) := by
  constructor
  · rfl
  · rintro ⟨x, xs, hx⟩
    injection hx with hx
    exact List.cons_ne_nil x xs hx.symm

/-- C7 (amended): for an Anthropic body the parsed text equals the 'text'
field (default "") of the first element of the `content` list whenever
`content` is a NON-EMPTY list, and the stringified content otherwise (the
empty list, being falsy, falls in the stringified branch); finishReason is
`stop_reason` defaulting to "stop", and usage comes from
`usage.input_tokens` / `usage.output_tokens` with missing fields read as 0. -/
theorem c7_anthropic_field_mapping (data : Json) (r : UnifiedResponse)
    (h : parse_anthropic_response data = some r) :
    (∀ x xs, pyGetD data "content" (Json.arr []) = some (Json.arr (x :: xs)) →
        pyGetD x "text" (Json.str "") = some r.text)
      ∧ (∀ c, pyGetD data "content" (Json.arr []) = some c →
          (∀ x xs, c ≠ Json.arr (x :: xs)) → r.text = Json.str (pyStr c))
      ∧ pyGetD data "stop_reason" (Json.str "stop") = some r.finish_reason
      ∧ (∃ u, pyGetD data "usage" (Json.obj []) = some u
            ∧ pyGetD u "input_tokens" (Json.num 0) = some r.usage.prompt_tokens
            ∧ pyGetD u "output_tokens" (Json.num 0) = some r.usage.completion_tokens) := by
  simp only [parse_anthropic_response, Option.bind_eq_bind, Option.bind_eq_some,
    Option.some.injEq] at h
  obtain ⟨content, hc, text, ht, finish, hfin, usage_data, hu, pt, hpt, ct, hct, tt, htt, hr⟩ := h
  subst hr
  refine ⟨?_, ?_, hfin, usage_data, hu, hpt, hct⟩
  · intro x xs hx
    rw [hc, Option.some.injEq] at hx
    subst hx
    exact ht
  · intro c hcc hne
    rw [hc, Option.some.injEq] at hcc
    subst hcc
    rcases content with _ | b | n | s | xs | fs
    · simp only [anthropicTextOf, Option.some.injEq] at ht
      exact ht.symm
    · simp only [anthropicTextOf, Option.some.injEq] at ht
      exact ht.symm
    · simp only [anthropicTextOf, Option.some.injEq] at ht
      exact ht.symm
    · simp only [anthropicTextOf, Option.some.injEq] at ht
      exact ht.symm
    · rcases xs with _ | ⟨x, xs⟩
      · simp only [anthropicTextOf, Option.some.injEq] at ht
        exact ht.symm
      · exact absurd rfl (hne x xs)
    · simp only [anthropicTextOf, Option.some.injEq] at ht
      exact ht.symm

/-- Witness for C7 (amended) at a concrete well-formed Anthropic body. -/
theorem c7_witness :
    parse_anthropic_response
        (Json.obj [("content", Json.arr [Json.obj [("text", Json.str "hi")]]),
                   ("stop_reason", Json.str "end_turn"),
                   ("usage", Json.obj [("input_tokens", Json.num 3),
                                       ("output_tokens", Json.num 2)])])
        = some ⟨Json.str "hi", Json.str "end_turn",
                ⟨Json.num 3, Json.num 2, Json.num 5⟩⟩
      ∧ pyGetD (Json.obj [("text", Json.str "hi")]) "text" (Json.str "")
          = some (Json.str "hi") := by
  refine ⟨rfl, ?_⟩
  exact (c7_anthropic_field_mapping
      (Json.obj [("content", Json.arr [Json.obj [("text", Json.str "hi")]]),
                 ("stop_reason", Json.str "end_turn"),
                 ("usage", Json.obj [("input_tokens", Json.num 3),
                                     ("output_tokens", Json.num 2)])])
      ⟨Json.str "hi", Json.str "end_turn", ⟨Json.num 3, Json.num 2, Json.num 5⟩⟩
      rfl).1 (Json.obj [("text", Json.str "hi")]) [] rfl

/-- C8: for every recognized family and native body that parses, the
produced usage satisfies totalTokens = promptTokens + completionTokens
(under the embedded Python `+`), and a Titan response always carries usage
(0, 0, 0) — as a value, not an error — regardless of the body's contents. -/
theorem c8_usage_invariant (model : String) (data : Json) (r : UnifiedResponse)
    (h : BedrockResponse_init model data = .ok r) :
    pyAdd r.usage.prompt_tokens r.usage.completion_tokens = some r.usage.total_tokens
      ∧ (modelFamily model = some .titan →
          r.usage.prompt_tokens = Json.num 0 ∧ r.usage.completion_tokens = Json.num 0
            ∧ r.usage.total_tokens = Json.num 0) := by
  unfold BedrockResponse_init at h
  split at h <;> rename_i hf
  · -- anthropic
    split at h <;> rename_i hp
    · rename_i r1
      injection h with h
      subst h
      simp only [parse_anthropic_response, Option.bind_eq_bind, Option.bind_eq_some,
        Option.some.injEq] at hp
      obtain ⟨content, hc, text, ht, finish, hfin, u, hu, pt, hpt, ct, hct, tt, htt, hr⟩ := hp
      subst hr
      refine ⟨htt, ?_⟩
      intro hti
      rw [hf] at hti
      simp at hti
    · exact absurd h (by simp)
  · -- titan
    split at h <;> rename_i hp
    · rename_i r1
      injection h with h
      subst h
      simp only [parse_titan_response, Option.bind_eq_bind, Option.bind_eq_some,
        Option.some.injEq] at hp
      obtain ⟨results, hres, h2⟩ := hp
      split at h2
      · simp only [Option.bind_eq_bind, Option.bind_eq_some, Option.some.injEq] at h2
        obtain ⟨first, hfirst, text, htext, hr⟩ := h2
        subst hr
        exact ⟨rfl, fun _ => ⟨rfl, rfl, rfl⟩⟩
      · simp only [Option.some_bind, Option.some.injEq] at h2
        subst h2
        exact ⟨rfl, fun _ => ⟨rfl, rfl, rfl⟩⟩
    · exact absurd h (by simp)
  · -- llama
    split at h <;> rename_i hp
    · rename_i r1
      injection h with h
      subst h
      simp only [parse_llama_response, Option.bind_eq_bind, Option.bind_eq_some,
        Option.some.injEq] at hp
      obtain ⟨text, ht, finish, hfin, pt, hpt, ct, hct, tt, htt, hr⟩ := hp
      subst hr
      refine ⟨htt, ?_⟩
      intro hti
      rw [hf] at hti
      simp at hti
    · exact absurd h (by simp)
  · exact absurd h (by simp)

/-- Witness for C8 at a concrete Titan body. -/
theorem c8_witness :
    BedrockResponse_init "amazon.titan-text-express-v1"
        (Json.obj [("results", Json.arr [Json.obj [("outputText", Json.str "hello")]])])
        = .ok ⟨Json.str "hello", Json.str "stop", ⟨Json.num 0, Json.num 0, Json.num 0⟩⟩
      ∧ pyAdd (Json.num 0) (Json.num 0) = some (Json.num 0)
      ∧ (⟨Json.num 0, Json.num 0, Json.num 0⟩ : Usage).total_tokens = Json.num 0 := by
  refine ⟨rfl, ?_, ?_⟩
  · exact (c8_usage_invariant "amazon.titan-text-express-v1"
      (Json.obj [("results", Json.arr [Json.obj [("outputText", Json.str "hello")]])])
      ⟨Json.str "hello", Json.str "stop", ⟨Json.num 0, Json.num 0, Json.num 0⟩⟩ rfl).1
  · exact ((c8_usage_invariant "amazon.titan-text-express-v1"
      (Json.obj [("results", Json.arr [Json.obj [("outputText", Json.str "hello")]])])
      ⟨Json.str "hello", Json.str "stop", ⟨Json.num 0, Json.num 0, Json.num 0⟩⟩ rfl).2
      (by decide)).2.2

/-- C9: for each of the three families, building a request from the empty
message list returns the minimal syntactically valid native body of that
family's shape — empty messages list / prompt consisting only of the
trailing assistant cue — with max tokens, temperature, and the defaults
topP = 0.9 and empty stop sequences where applicable, and no exception (the
formatters are total functions). -/
theorem c9_empty_messages_valid (temperature : Rat) (max_tokens : Int) :
    format_anthropic_request [] temperature max_tokens
        = ⟨[], max_tokens, temperature, "bedrock-2023-05-31", none⟩
      ∧ format_titan_request [] temperature max_tokens none none
        = ⟨"Assistant: ", ⟨max_tokens, temperature, 9 / 10, []⟩⟩
      ∧ format_llama_request [] temperature max_tokens none
        = ⟨"<|start_header_id|>assistant<|end_header_id|>\n",
           max_tokens, temperature, 9 / 10⟩ :=
  ⟨rfl, rfl, rfl⟩

/-- C10: `resolve` removes every occurrence of "bedrock/", not only a
leading provider-gateway prefix: on an input with "bedrock/" in a non-prefix
position the resolved id (here with an empty profile listing, so no
qualification applies) differs from the input with only a leading prefix
stripped. -/
theorem c10_replace_all_occurrences :
    get_best_model_id "anthropic.bedrock/claude-x" none = "anthropic.claude-x"
      ∧ get_best_model_id "anthropic.bedrock/claude-x" none
          ≠ spec_strip_leading_gateway "anthropic.bedrock/claude-x" := by
  exact ⟨by decide, by decide⟩
